import Mathlib

/-!
Verification development for the ai-prompt-enhancer core modules:
the prompt analyzer (src/analyzer.js), the template manager
(src/templates.js) and the prompt enhancer.  The JavaScript code is
shallowly embedded: JS numbers appearing in score arithmetic are modelled
as exact rationals, machine strings as Lean `String` (all inputs exercised
here are ASCII, where JS UTF-16 `length` agrees with the character count),
JS `Map` as an insertion-ordered association list, JS `Set` as a `Finset`,
and `Date.now()` as an explicit `now : Nat` parameter.  Methods that throw
are embedded as functions returning `Except String _` together with the
store state at the moment of the throw, so that "state unchanged on error"
is expressible.  Regular-expression tests are translated into decidable
predicates; each translation is derived in a comment next to it.
-/

set_option maxRecDepth 8192

namespace Js

/-- JS `String.prototype.toLowerCase` restricted to ASCII (the repository
only ever matches ASCII keywords; `Char.toLower` lowers exactly ASCII). -/
def lowerStr (s : String) : String := ⟨s.data.map Char.toLower⟩

/-- JS regex word character `\w` = `[A-Za-z0-9_]`. -/
def isWordChar (c : Char) : Bool := c.isAlphanum || c = '_'

/-- JS regex `\s` (the WhiteSpace and LineTerminator productions). -/
def isJsWs (c : Char) : Bool :=
  c = ' ' || c = '\t' || c = '\n' || c.val = 11 || c.val = 12 || c = '\r' ||
  c.val = 160 || c.val = 0x1680 || (0x2000 ≤ c.val && c.val ≤ 0x200A) ||
  c.val = 0x2028 || c.val = 0x2029 || c.val = 0x202F || c.val = 0x205F ||
  c.val = 0x3000 || c.val = 0xFEFF

/-- JS line terminators, the characters that `.` does not match in a regex
without the `s` flag. -/
def isLineTerm (c : Char) : Bool :=
  c = '\n' || c = '\r' || c.val = 0x2028 || c.val = 0x2029

/-- The backtick character (written by code point to keep it out of the
source text). -/
def btick : Char := Char.ofNat 96

/-- Split a character list at maximal runs of separator characters,
following JS `String.prototype.split` on a one-character-class `+` regex:
a leading (resp. trailing) separator run yields a leading (resp. trailing)
empty piece, and `""` splits to `[""]`.  `inSep` records whether the
previous character was part of a separator run. -/
def splitGo (p : Char → Bool) (inSep : Bool) (acc : List Char) :
    List Char → List (List Char)
  | [] => [acc.reverse]
  | c :: cs =>
    if p c then
      if inSep then splitGo p true [] cs
      else acc.reverse :: splitGo p true [] cs
    else splitGo p false (c :: acc) cs

/-- JS `s.split(re)` for a regex matching nonempty runs of characters
satisfying `p` (such as `/\s+/` or `/[.!?]+/`). -/
def jsSplit (p : Char → Bool) (s : String) : List String :=
  (splitGo p false [] s.data).map (fun l => ⟨l⟩)

/-- JS `String.prototype.trim` (strips `\s` from both ends). -/
def jsTrim (s : String) : String :=
  ⟨((s.data.dropWhile isJsWs).reverse.dropWhile isJsWs).reverse⟩

/-- The maximal runs of characters satisfying `p`, in order.  Used to model
global regex matches of the form `\b(w1|w2|...)\b`: since every keyword
consists solely of word characters and is bounded by `\b` on both sides,
its match positions are exactly the maximal `\w`-runs equal to it. -/
def runsGo (p : Char → Bool) (inRun : Bool) (acc : List Char) :
    List Char → List (List Char)
  | [] => if inRun then [acc.reverse] else []
  | c :: cs =>
    if p c then runsGo p true (c :: acc) cs
    else if inRun then acc.reverse :: runsGo p false [] cs
    else runsGo p false [] cs

/-- The maximal word-character runs of a string. -/
def wordRuns (s : String) : List String :=
  (runsGo isWordChar false [] s.data).map (fun l => ⟨l⟩)

/-- Number of matches of the global case-insensitive regex
`\b(kws_1|...|kws_n)\b` (each keyword all-lowercase word characters). -/
def wordMatchCount (kws : List String) (s : String) : Nat :=
  ((wordRuns s).map lowerStr).countP (fun w => kws.contains w)

/-- Whether some `\b`-bounded case-insensitive occurrence of a keyword
exists:`wordMatchCount` positivity. -/
def containsWordOf (kws : List String) (s : String) : Bool :=
  ((wordRuns s).map lowerStr).any (fun w => kws.contains w)

/-- Number of matches of `/\b\d+\b/g`: maximal word runs that consist of
digits only. -/
def digitRunCount (s : String) : Nat :=
  (runsGo isWordChar false [] s.data).countP (fun r => r.all Char.isDigit)

/-- Substring containment (JS `String.prototype.includes`). -/
def containsSub (hay needle : String) : Bool :=
  hay.data.tails.any (fun t => needle.data.isPrefixOf t)

/-- Case-insensitive substring containment, for `/pat/i.test(s)` with a
literal all-lowercase pattern. -/
def containsCI (hay needle : String) : Bool :=
  containsSub (lowerStr hay) needle

/-- JS `s.startsWith(w)` on the lowered string: models `/^(w1|...)/i`. -/
def startsWithAnyCI (s : String) (ws : List String) : Bool :=
  ws.any (fun w => w.data.isPrefixOf (lowerStr s).data)

/-- Replace every occurrence of a nonempty literal pattern, left to right
and non-overlapping (JS `s.replace(/pat/g, rep)` with `pat` literal and
`rep` free of `$` escapes).  Fuelled by the input length: each step
consumes at least one character, so `fuel = cs.length` suffices and the
`0` branch is never reached on that fuel. -/
def replGo (pat rep : List Char) : Nat → List Char → List Char
  | _, [] => []
  | 0, cs => cs
  | fuel + 1, c :: cs =>
    if pat ≠ [] ∧ pat.isPrefixOf (c :: cs) then
      rep ++ replGo pat rep fuel ((c :: cs).drop pat.length)
    else c :: replGo pat rep fuel cs

/-- JS `s.replace(/pat/g, rep)`, literal pattern. -/
def jsReplaceAll (s pat rep : String) : String :=
  ⟨replGo pat.data rep.data s.data.length s.data⟩

/-- Replace only the first occurrence (JS `s.replace(pat, rep)` with a
string pattern). -/
def replFirstGo (pat rep : List Char) : List Char → List Char
  | [] => []
  | c :: cs =>
    if pat ≠ [] ∧ pat.isPrefixOf (c :: cs) then
      rep ++ (c :: cs).drop pat.length
    else c :: replFirstGo pat rep cs

/-- JS `s.replace(pat, rep)` with a string (non-regex) pattern. -/
def jsReplaceFirst (s pat rep : String) : String :=
  ⟨replFirstGo pat.data rep.data s.data⟩

/-- JS `x || y` on an optional string value: `undefined` and `""` are
falsy. -/
def jsOr (o : Option String) (d : String) : String :=
  match o with
  | some s => if s = "" then d else s
  | none => d

/-- Insertion-ordered association list, modelling a JS `Map` (and a plain
object): `set` overwrites in place, a fresh key is appended. -/
def mapGet {α : Type} (m : List (String × α)) (k : String) : Option α :=
  (m.find? (fun p => p.1 = k)).map (fun p => p.2)

/-- JS `Map.prototype.set` / object property assignment. -/
def mapSet {α : Type} (m : List (String × α)) (k : String) (v : α) :
    List (String × α) :=
  if m.any (fun p => p.1 = k) then
    m.map (fun p => if p.1 = k then (k, v) else p)
  else m ++ [(k, v)]

/-- JS `Map.prototype.delete`. -/
def mapDel {α : Type} (m : List (String × α)) (k : String) :
    List (String × α) :=
  m.filter (fun p => p.1 ≠ k)

/-- JS object spread `{...base, ...upd}` over string-valued records. -/
def objAssign (base upd : List (String × String)) : List (String × String) :=
  upd.foldl (fun m kv => mapSet m kv.1 kv.2) base

/-- JS `Math.round` for possibly negative arguments: halves round toward
positive infinity, so `Math.round(x) = ⌊x + 1/2⌋`.  The floor of a
normalised rational is the Euclidean quotient of its numerator by its
(positive) denominator. -/
def jsRound (q : ℚ) : ℤ := Int.ediv (q + 1/2).num (q + 1/2).den

end Js

namespace Analyzer

open Js

/-- Metrics record produced by `PromptAnalyzer.calculateMetrics`.  Scores
that JS computes with fractional arithmetic are rationals; the rest are
naturals. -/
structure Metrics where
  characterCount : Nat
  wordCount : Nat
  sentenceCount : Nat
  paragraphCount : Nat
  averageWordsPerSentence : ℚ
  readabilityScore : ℚ
  complexityScore : Nat
  specificityScore : Nat
deriving DecidableEq, Repr

/-- Issue record pushed by `PromptAnalyzer.identifyIssues`. -/
structure Issue where
  type : String
  severity : String
  message : String
  suggestion : String
deriving DecidableEq, Repr

/-- Suggestion record produced by `PromptAnalyzer.generateSuggestions`
(the JS field `example`, here `example_` since `example` is a Lean keyword, is absent on the placeholder template suggestion, which instead
carries `template: true`). -/
structure ASuggestion where
  id : String
  type : String
  category : String
  priority : Nat
  title : String
  description : String
  example_ : Option String := none
  template : Bool := false
deriving DecidableEq, Repr

/-- Analysis result.  `metrics := none` models the empty object `{}` of
`createEmptyAnalysis`; the pass-through `context` parameter (stored
verbatim and never read) is not modelled.  The `onAnalysisComplete`
callback is a fire-and-forget side effect outside the embedding. -/
structure Analysis where
  originalText : String
  timestamp : Nat
  metrics : Option Metrics
  issues : List Issue
  suggestions : List ASuggestion
  score : Int
  category : String
deriving DecidableEq, Repr

/-- Sentence-splitting character class `[.!?]`. -/
def isSentChar (c : Char) : Bool := c = '.' || c = '!' || c = '?'

/-- Regex `tooVague = /(what|how|why|tell me about|explain)\s*$/i`.
Every alternative ends in a non-whitespace character and `$` is the end of
the input, so the greedy `\s*` must absorb exactly the trailing whitespace
run: the test holds iff the input with trailing `\s` stripped ends in one
of the alternatives (case-insensitively, with no word boundary). -/
def tooVagueTest (s : String) : Bool :=
  let t : List Char := ((lowerStr s).data.reverse.dropWhile isJsWs).reverse
  [ "what", "how", "why", "tell me about", "explain" ].any
    (fun w => w.data.isSuffixOf t)

/-- Regex `noContext = /^(?!.*\b(context|background|scenario|situation)\b).+$/i`
(no `m`, no `s` flag).  `^` and `$` anchor to the very start and end of the
input and `.` matches no line terminator, so `.+$` forces the whole input
to be one nonempty terminator-free line; the negative lookahead then scans
that whole line for a `\b`-bounded keyword.  Hence the test holds iff the
input is nonempty, contains no line terminator, and contains no
case-insensitive `\b`-bounded occurrence of a context keyword. -/
def noContextTest (s : String) : Bool :=
  !s.isEmpty && !(s.data.any isLineTerm) &&
    !(containsWordOf [ "context", "background", "scenario", "situation" ] s)

/-- Regex `needsRole = /^(?!.*(act as|you are|assume you|pretend|role of)).+$/i`:
same anchored negative-lookahead shape as `noContext` but with plain
substring alternatives (no `\b`). -/
def needsRoleTest (s : String) : Bool :=
  !s.isEmpty && !(s.data.any isLineTerm) &&
    !([ "act as", "you are", "assume you", "pretend", "role of" ].any
      (fun w => containsCI s w))

/-- Regex `needsFormat = /^(?!.*(format|structure|organize|list|table|bullet)).+$/i`. -/
def needsFormatTest (s : String) : Bool :=
  !s.isEmpty && !(s.data.any isLineTerm) &&
    !([ "format", "structure", "organize", "list", "table", "bullet" ].any
      (fun w => containsCI s w))

/-- Helper for `needsSpecificity`: does
`(w1)\s+(w2)` match at the head of `l` for some `w1` in `g1`, `w2` in
`g2`?  The `w2` alternatives start with letters, so the greedy `\s+` must
absorb the whole whitespace run. -/
def specPhraseAt (g1 g2 : List String) (l : List Char) : Bool :=
  g1.any (fun w1 =>
    w1.data.isPrefixOf l &&
      (let r := l.drop w1.length
       !(r.takeWhile isJsWs).isEmpty &&
         g2.any (fun w2 => w2.data.isPrefixOf (r.dropWhile isJsWs))))

/-- Regex `needsSpecificity = /(general|basic|simple|quick|brief)\s+(help|info|explanation)/i`:
an unanchored match anywhere in the lowered input. -/
def needsSpecificityTest (s : String) : Bool :=
  (lowerStr s).data.tails.any
    (specPhraseAt [ "general", "basic", "simple", "quick", "brief" ]
      [ "help", "info", "explanation" ])

/-- Regex `needsExamples = /(example|sample|instance|demonstrate)/i`. -/
def needsExamplesTest (s : String) : Bool :=
  [ "example", "sample", "instance", "demonstrate" ].any
    (fun w => containsCI s w)

/-- First position after a literal triple backtick, if any. -/
def afterTriple : List Char → Option (List Char)
  | c :: d :: e :: r =>
    if c = btick ∧ d = btick ∧ e = btick then some r
    else afterTriple (d :: e :: r)
  | _ => none

/-- Match of the second alternative of `hasCode`: a backtick, then at
least one non-backtick, then a backtick. -/
def inlineCode : List Char → Bool
  | [] => false
  | c :: cs =>
    (c = btick && (match cs with
      | d :: ds => d ≠ btick && ds.contains btick
      | [] => false)) || inlineCode cs

/-- Regex `hasCode = /```[\s\S]*```|`[^`]+`/`: either two triple-backtick
markers in order, or an inline code span. -/
def hasCodeTest (s : String) : Bool :=
  (match afterTriple s.data with
   | some r => (afterTriple r).isSome
   | none => false) || inlineCode s.data

/-- Branch `\b\d+%` of `hasData`: backtracking on `\d+` is futile, so the
match is a maximal digit run at a word boundary followed by `%`.  `prevW`
carries whether the previous character was a word character. -/
def percentData (prevW : Bool) : List Char → Bool
  | [] => false
  | c :: cs =>
    (!prevW && c.isDigit &&
      (match (c :: cs).dropWhile Char.isDigit with
       | d :: _ => d = '%'
       | [] => false)) || percentData (isWordChar c) cs

/-- Branch `\$\d+` of `hasData`. -/
def dollarData : List Char → Bool
  | a :: b :: r => (a = '$' && b.isDigit) || dollarData (b :: r)
  | _ => false

/-- Branch `\d+\s*(users|customers|records|items)` of `hasData` on the
lowered text: a unit word whose preceding whitespace run is preceded by a
digit.  `revPre` is the reversed prefix already consumed. -/
def unitData (revPre : List Char) : List Char → Bool
  | [] => false
  | c :: cs =>
    (([ "users", "customers", "records", "items" ] : List String).any
        (fun w => w.data.isPrefixOf (c :: cs)) &&
      (match revPre.dropWhile isJsWs with
       | d :: _ => d.isDigit
       | [] => false)) || unitData (c :: revPre) cs

/-- Regex `hasData = /\b\d+%|\$\d+|\d+\s*(users|customers|records|items)/i`. -/
def hasDataTest (s : String) : Bool :=
  percentData false (lowerStr s).data || dollarData (lowerStr s).data ||
    unitData [] (lowerStr s).data

/-- Paragraph separator split, JS `text.split(/\n\s*\n/)`.  A separator
match starts at a `\n` whose following maximal `\s` run contains another
`\n`, and (the `\s*` being greedy with a final `\n` to satisfy) extends
exactly to the last `\n` of that run.  One-pass state machine: `seg` is
the reversed current segment, `pend` the reversed whitespace seen since
the pending `\n` (or, once `sep` is set, since the last separator `\n`),
`sep` whether a separator has been confirmed for the current boundary. -/
def paraGo (seg pend : List Char) (sep : Bool) :
    List Char → List (List Char)
  | [] =>
    if sep then [seg.reverse, pend.reverse] else [(pend ++ seg).reverse]
  | c :: cs =>
    if c = '\n' then
      if sep then paraGo seg [] true cs
      else if pend.isEmpty then paraGo seg [c] false cs
      else paraGo seg [] true cs
    else if isJsWs c then
      if sep then paraGo seg (c :: pend) true cs
      else if pend.isEmpty then paraGo (c :: seg) [] false cs
      else paraGo seg (c :: pend) false cs
    else
      if sep then (seg.reverse) :: paraGo (c :: pend) [] false cs
      else paraGo (c :: (pend ++ seg)) [] false cs

/-- JS `text.split(/\n\s*\n/)`. -/
def paraSplit (s : String) : List String :=
  (paraGo [] [] false s.data).map (fun l => ⟨l⟩)

/-- `PromptAnalyzer.countSyllables`.  The JS accumulator is shared across
words: the silent-`e` decrement and the `< 1` clamp apply to the running
total, which this fold reproduces (hence the integer codomain). -/
def countSyllables (s : String) : Int :=
  let ws : List String :=
    ((wordRuns (lowerStr s))).filter (fun w => w.data.all Char.isLower)
  ws.foldl
    (fun acc w =>
      let vg := (runsGo (fun c => c = 'a' || c = 'e' || c = 'i' || c = 'o' ||
        c = 'u' || c = 'y') false [] w.data).length
      let a1 : Int := acc + (if vg = 0 then 1 else (vg : Int))
      let a2 : Int := if w.data.getLast? = some 'e' then a1 - 1 else a1
      if a2 < 1 then 1 else a2)
    0

/-- `PromptAnalyzer.calculateReadability`: words and sentences are counted
with bare `split` (empty pieces included), unlike `calculateMetrics`. -/
def calculateReadability (s : String) : ℚ :=
  let words := (jsSplit isJsWs s).length
  let sentences := (jsSplit isSentChar s).length
  let syllables := countSyllables s
  if words = 0 ∨ sentences = 0 then 0
  else
    max 0 (min 100
      (206835/1000 - (1015/1000) * ((words : ℚ) / (sentences : ℚ)) -
        (846/10) * ((syllables : ℚ) / (words : ℚ))))

/-- `PromptAnalyzer.calculateComplexity`. -/
def calculateComplexity (s : String) : Nat :=
  let technicalWords := wordMatchCount
    [ "algorithm", "implement", "optimize", "analyze", "framework",
      "architecture" ] s
  let score := technicalWords * 10
  let score := if hasCodeTest s then score + 20 else score
  let requirements := wordMatchCount
    [ "and", "also", "additionally", "furthermore", "moreover" ] s
  let score := score + requirements * 5
  let conditionals := wordMatchCount
    [ "if", "when", "unless", "provided", "given" ] s
  let score := score + conditionals * 3
  min 100 score

/-- `PromptAnalyzer.calculateSpecificity`. -/
def calculateSpecificity (s : String) : Nat :=
  let numbers := digitRunCount s
  let score := numbers * 5
  let specificTerms := wordMatchCount
    [ "exactly", "precisely", "specifically", "particular", "detailed" ] s
  let score := score + specificTerms * 10
  let score := if needsExamplesTest s then score + 15 else score
  let score := if !needsRoleTest s then score + 10 else score
  let score := if !needsFormatTest s then score + 10 else score
  min 100 score

/-- `PromptAnalyzer.calculateMetrics`. -/
def calculateMetrics (s : String) : Metrics :=
  let words := (jsSplit isJsWs (jsTrim s)).filter (fun w => 0 < w.length)
  let sentences := (jsSplit isSentChar s).filter (fun t => jsTrim t ≠ "")
  let paragraphs := (paraSplit s).filter (fun t => jsTrim t ≠ "")
  { characterCount := s.length
    wordCount := words.length
    sentenceCount := sentences.length
    paragraphCount := paragraphs.length
    averageWordsPerSentence :=
      if 0 < sentences.length then (words.length : ℚ) / (sentences.length : ℚ)
      else 0
    readabilityScore := calculateReadability s
    complexityScore := calculateComplexity s
    specificityScore := calculateSpecificity s }

/-- The seven issue records `identifyIssues` can push. -/
def lengthShortIssue : Issue :=
  { type := "length", severity := "high",
    message := "Prompt is too short and may lack necessary detail",
    suggestion := "Add more context and specific requirements" }

/-- Issue pushed for over-long prompts. -/
def lengthLongIssue : Issue :=
  { type := "length", severity := "medium",
    message := "Prompt is very long and may be overwhelming",
    suggestion := "Consider breaking into smaller, focused requests" }

/-- Issue pushed for vague prompts. -/
def vaguenessIssue : Issue :=
  { type := "vagueness", severity := "high",
    message := "Prompt is too vague and generic",
    suggestion := "Be more specific about what you want to achieve" }

/-- Issue pushed for missing context. -/
def contextIssue : Issue :=
  { type := "context", severity := "medium",
    message := "Prompt lacks background context",
    suggestion := "Provide relevant background information or constraints" }

/-- Issue pushed for missing role assignment. -/
def roleIssue : Issue :=
  { type := "role", severity := "low",
    message := "Could benefit from defining AI role or expertise",
    suggestion := "Start with \"Act as a [role]\" or \"You are an expert in [field]\"" }

/-- Issue pushed for missing format specification. -/
def formatIssue : Issue :=
  { type := "format", severity := "low",
    message := "Output format not specified",
    suggestion := "Specify desired format (list, table, paragraphs, etc.)" }

/-- Issue pushed for over-general requests. -/
def specificityIssue : Issue :=
  { type := "specificity", severity := "medium",
    message := "Request is too general",
    suggestion := "Replace general terms with specific requirements" }

/-- `PromptAnalyzer.identifyIssues` (rules: minLength 15, maxLength 2000). -/
def identifyIssues (s : String) : List Issue :=
  (if s.length < 15 then [lengthShortIssue]
   else if 2000 < s.length then [lengthLongIssue]
   else []) ++
  (if tooVagueTest s then [vaguenessIssue] else []) ++
  (if noContextTest s ∧ 30 < s.length then [contextIssue] else []) ++
  (if needsRoleTest s ∧ 50 < s.length then [roleIssue] else []) ++
  (if needsFormatTest s ∧ 40 < s.length then [formatIssue] else []) ++
  (if needsSpecificityTest s then [specificityIssue] else [])

/-- `PromptAnalyzer.categorizePrompt`. -/
def categorizePrompt (s : String) : String :=
  if startsWithAnyCI s [ "what", "how", "why", "when", "where", "who",
      "which", "can you", "could you", "would you" ] then "question"
  else if startsWithAnyCI s [ "write", "create", "generate", "make",
      "build", "design", "develop" ] then "instruction"
  else if startsWithAnyCI s [ "analyze", "compare", "evaluate", "assess",
      "review", "examine" ] then "analysis"
  else if startsWithAnyCI s [ "explain", "describe", "tell me", "clarify" ]
    then "explanation"
  else if hasCodeTest s then "technical"
  else if hasDataTest s then "data"
  else "general"

/-- Per-issue penalty of `PromptAnalyzer.calculateScore`; the `switch` has
no default, so unknown severities subtract nothing. -/
def severityPenalty (i : Issue) : ℚ :=
  if i.severity = "high" then 15
  else if i.severity = "medium" then 10
  else if i.severity = "low" then 5
  else 0

/-- `PromptAnalyzer.calculateScore` (rules: optimalLength [50, 500]).  The
source reads `analysis.metrics` and `analysis.issues`; both are passed
directly. -/
def calculateScore (m : Metrics) (issues : List Issue) : Int :=
  let score : ℚ := 50
  let score :=
    if 50 ≤ m.wordCount ∧ m.wordCount ≤ 500 then score + 20
    else if m.wordCount < 50 then score - 15
    else score - 10
  let score := issues.foldl (fun a i => a - severityPenalty i) score
  let score := score + (m.specificityScore : ℚ) * (3/10)
  let score := score + m.readabilityScore * (1/10)
  max 0 (min 100 (jsRound score))

/-- `PromptAnalyzer.getSeverityPriority`. -/
def getSeverityPriority (severity : String) : Nat :=
  if severity = "high" then 90
  else if severity = "medium" then 60
  else if severity = "low" then 30
  else 10

/-- `PromptAnalyzer.getExampleForIssue`. -/
def getExampleForIssue (issueType originalText : String) : String :=
  if issueType = "length" then
    "Instead of: \"" ++ ⟨originalText.data.take 30⟩ ++
      "...\"\nTry: \"I\x27m working on [context]. Please help me [specific request] by [method]. I need this for [purpose]."
  else if issueType = "vagueness" then
    "Instead of: \"How do I do X?\"\nTry: \"How do I implement X in [technology] for [use case] considering [constraints]?\""
  else if issueType = "context" then
    "Add context like: \"I\x27m a [role] working on [project]. Given that [situation], I need to [goal].\""
  else if issueType = "role" then
    "Start with: \"Act as a [expert type] with experience in [field].\""
  else if issueType = "format" then
    "Specify format: \"Please provide your response as [format: bullet points/table/numbered list/etc.]\""
  else "Consider being more specific and providing additional context."

/-- `PromptAnalyzer.getCategorySpecificSuggestions` (the `text` argument
is unused by the source too). -/
def getCategorySpecificSuggestions (category : String) (_text : String) :
    List ASuggestion :=
  if category = "question" then
    [ { id := "question_context", type := "enhancement",
        category := "context", priority := 70,
        title := "Add background context",
        description := "Provide relevant background information to get better answers",
        example_ := some "Include your experience level, current situation, or specific constraints" } ]
  else if category = "instruction" then
    [ { id := "instruction_requirements", type := "enhancement",
        category := "requirements", priority := 80,
        title := "Specify detailed requirements",
        description := "Include specific requirements, constraints, and success criteria",
        example_ := some "Add target audience, length requirements, style preferences, or technical constraints" } ]
  else if category = "technical" then
    [ { id := "technical_environment", type := "enhancement",
        category := "technical", priority := 75,
        title := "Specify technical environment",
        description := "Include programming language, framework, or platform details",
        example_ := some "Mention: language version, dependencies, deployment environment, or performance requirements" } ]
  else []

/-- `PromptAnalyzer.getTemplateSuggestions` (a hard-coded placeholder in
the source). -/
def getTemplateSuggestionsA (_category _text : String) : List ASuggestion :=
  [ { id := "template_structured", type := "template",
      category := "structure", priority := 50,
      title := "Use structured prompt template",
      description := "Apply a proven template structure for better results",
      template := true } ]

/-- `PromptAnalyzer.generateSuggestions`, sorted by the stable comparator
`(a, b) => b.priority - a.priority` (a keeps its place before b iff
`b.priority ≤ a.priority`). -/
def generateSuggestionsA (s : String) : List ASuggestion :=
  let issues := identifyIssues s
  let category := categorizePrompt s
  let fromIssues := issues.map (fun i =>
    { id := "fix_" ++ i.type, type := "improvement", category := i.type,
      priority := getSeverityPriority i.severity, title := i.message,
      description := i.suggestion,
      example_ := some (getExampleForIssue i.type s) })
  (fromIssues ++ getCategorySpecificSuggestions category s ++
      getTemplateSuggestionsA category s).mergeSort
    (fun a b => decide (b.priority ≤ a.priority))

/-- `PromptAnalyzer.createEmptyAnalysis`. -/
def createEmptyAnalysis (now : Nat) : Analysis :=
  { originalText := "", timestamp := now, metrics := none, issues := [],
    suggestions := [], score := 0, category := "general" }

/-- Inputs of `analyze`: a JS string, or one of the non-string values the
`typeof` guard rejects. -/
inductive JsInput where
  | jstr (s : String)
  | jnull
  | jnum (q : ℚ)
  | jbool (b : Bool)
deriving DecidableEq, Repr

/-- `PromptAnalyzer.analyze`: the guard `!text || typeof text !== 'string'`
sends `null`, numbers, booleans and the empty string to
`createEmptyAnalysis`; otherwise the analysis record is assembled and its
score computed from its own metrics and issues. -/
def analyze (input : JsInput) (now : Nat) : Analysis :=
  match input with
  | JsInput.jstr s =>
    if s = "" then createEmptyAnalysis now
    else
      { originalText := s, timestamp := now,
        metrics := some (calculateMetrics s),
        issues := identifyIssues s,
        suggestions := generateSuggestionsA s,
        score := calculateScore (calculateMetrics s) (identifyIssues s),
        category := categorizePrompt s }
  | _ => createEmptyAnalysis now

end Analyzer

namespace Templates

open Js

/-- Template record (src/templates.js).  Absent JS fields are modelled by
their falsy defaults: `id = ""` (the `!template.id` check), `priority = 0`
(every use is `priority || 0` or `priority || 50`, under which `0` and
`undefined` agree), `createdAt = 0` (used as `createdAt || Date.now()`),
`lastUsed = 0` and `usageCount = 0` (used as `usageCount || 0`).  The JS
field `variables` is spelled `variables_` (`variables` is reserved). -/
structure Template where
  id : String := ""
  category : String := ""
  name : String := ""
  description : String := ""
  content : String := ""
  priority : Nat := 0
  addresses : List String := []
  variables_ : List String := []
  isUserCreated : Bool := false
  usageCount : Nat := 0
  lastUsed : Nat := 0
  createdAt : Nat := 0
  updatedAt : Nat := 0
deriving DecidableEq, Repr

/-- Category record held in `this.categories`. -/
structure Category where
  name : String
  description : String
  icon : String
  templates : List String
deriving DecidableEq, Repr

/-- The mutable state of a `TemplateManager` instance.  JS `Map`s are
insertion-ordered association lists, the `Set` of favorites a `Finset`
(no claim observes its iteration order).  The constructor additionally
seeds `initializeDefaultTemplates`; the claims quantify over arbitrary
store states, so the seeding is not replayed here. -/
structure Store where
  templates : List (String × Template) := []
  categories : List (String × Category) := []
  userTemplates : List (String × Template) := []
  recentlyUsed : List String := []
  favorites : Finset String := ∅
deriving DecidableEq

/-- `TemplateManager.validateTemplate`: the four required fields must be
truthy (nonempty). -/
def validateTemplate (t : Template) : Bool :=
  t.name ≠ "" && t.content ≠ "" && t.category ≠ "" && t.description ≠ ""

/-- Slug base of `TemplateManager.generateTemplateId`: lowercase, replace
each run of `[^a-z0-9]` by `_`, strip leading/trailing `_`.  Replacing
runs by single underscores and then stripping the outer ones is the same
as joining the nonempty `[a-z0-9]` pieces with `_`. -/
def slugify (name : String) : String :=
  String.intercalate "_"
    ((jsSplit (fun c => !(c.isLower || c.isDigit)) (lowerStr name)).filter
      (fun p => p ≠ ""))

/-- Counter loop of `generateTemplateId`.  The JS `while` terminates
because the candidate ids are pairwise distinct and the map is finite; a
fuel of `size + 1` candidates therefore always suffices (pigeonhole), and
the fuel-exhausted branch is unreachable. -/
def genIdGo (st : Store) (base : String) : Nat → Nat → String
  | 0, n => base ++ "_" ++ toString n
  | fuel + 1, n =>
    let id := base ++ "_" ++ toString n
    if (mapGet st.templates id).isNone then id else genIdGo st base fuel (n + 1)

/-- `TemplateManager.generateTemplateId`. -/
def generateTemplateId (st : Store) (name : String) : String :=
  let base := slugify name
  if (mapGet st.templates base).isNone then base
  else genIdGo st base (st.templates.length + 1) 1

/-- `TemplateManager.getTemplate` (`|| null` becomes `Option`). -/
def getTemplate (st : Store) (templateId : String) : Option Template :=
  mapGet st.templates templateId

/-- `TemplateManager.addTemplate`.  Mutating methods return the store
state that the JS instance holds when the method returns or throws. -/
def addTemplate (st : Store) (tin : Template) (now : Nat) :
    Except String String × Store :=
  if !validateTemplate tin then (Except.error "Invalid template format", st)
  else
    let t1 := if tin.id = "" then { tin with id := generateTemplateId st tin.name } else tin
    let t2 := { t1 with
      createdAt := if t1.createdAt = 0 then now else t1.createdAt,
      updatedAt := now }
    let st1 := { st with templates := mapSet st.templates t2.id t2 }
    let st2 :=
      match mapGet st1.categories t2.category with
      | some cat =>
        if t2.id ∈ cat.templates then st1
        else
          let cat2 := { cat with templates := cat.templates ++ [t2.id] }
          { st1 with categories := mapSet st1.categories t2.category cat2 }
      | none => st1
    (Except.ok t2.id, st2)

/-- `TemplateManager.trackTemplateUsage`.  In JS the template object is
shared by reference between `templates` and `userTemplates`; the usage
mutation is therefore applied to both maps. -/
def trackTemplateUsage (st : Store) (templateId : String) (now : Nat) :
    Store :=
  let st1 := { st with recentlyUsed :=
    (templateId :: st.recentlyUsed.filter (fun i => i ≠ templateId)).take 20 }
  match getTemplate st1 templateId with
  | some t =>
    let t2 := { t with usageCount := t.usageCount + 1, lastUsed := now }
    { st1 with
      templates := mapSet st1.templates templateId t2,
      userTemplates :=
        if (mapGet st1.userTemplates templateId).isSome then
          mapSet st1.userTemplates templateId t2
        else st1.userTemplates }
  | none => st1

/-- One step of the variable-substitution loop of
`TemplateManager.applyTemplate`: `content.replace(/\{key\}/g, value ||
`[key]`)` (all variable names in the repository are word characters, so
the interpolated regex is the literal token). -/
def substVar (content : String) (kv : String × String) : String :=
  jsReplaceAll content ( "\x7b" ++ kv.1 ++ "\x7d")
    (if kv.2 = "" then "[" ++ kv.1 ++ "]" else kv.2)

/-- `TemplateManager.applyTemplate`.  `allVariables` spreads the implicit
`prompt`/`original_prompt` entries with the supplied variables (values are
strings; the only falsy string is `""`). -/
def applyTemplate (st : Store) (templateId originalPrompt : String)
    (vars : List (String × String)) (now : Nat) :
    Except String String × Store :=
  match getTemplate st templateId with
  | none => (Except.error ( "Template not found: " ++ templateId), st)
  | some t =>
    let allVariables := objAssign
      [( "prompt", originalPrompt), ( "original_prompt", originalPrompt)]
      vars
    let content := allVariables.foldl substVar t.content
    (Except.ok content, trackTemplateUsage st templateId now)

/-- `TemplateManager.createUserTemplate`.  The object stored into
`userTemplates` is the same (mutated) object `addTemplate` stored into
`templates`, so it is read back from there. -/
def createUserTemplate (st : Store) (data : Template) (now : Nat) :
    Except String String × Store :=
  let t := { data with
    id := generateTemplateId st data.name,
    isUserCreated := true,
    category := if data.category = "" then "general" else data.category }
  match addTemplate st t now with
  | (Except.ok tid, st1) =>
    let ut :=
      match getTemplate st1 tid with
      | some stored => mapSet st1.userTemplates tid stored
      | none => st1.userTemplates
    (Except.ok tid, { st1 with userTemplates := ut })
  | (Except.error e, st1) => (Except.error e, st1)

/-- `TemplateManager.updateTemplate`.  The JS `updates` object is an
arbitrary field patch; its spread `{...template, ...updates}` is modelled
by a patch function on templates. -/
def updateTemplate (st : Store) (templateId : String)
    (updates : Template → Template) (now : Nat) :
    Except String Unit × Store :=
  match getTemplate st templateId with
  | none => (Except.error ( "Template not found: " ++ templateId), st)
  | some t =>
    if !t.isUserCreated then
      (Except.error "Cannot modify system templates", st)
    else
      let u := { updates t with updatedAt := now }
      (Except.ok (), { st with
        templates := mapSet st.templates templateId u,
        userTemplates := mapSet st.userTemplates templateId u })

/-- `TemplateManager.deleteTemplate`.  An unknown id returns silently
(`if (!template) return;`). -/
def deleteTemplate (st : Store) (templateId : String) :
    Except String Unit × Store :=
  match getTemplate st templateId with
  | none => (Except.ok (), st)
  | some t =>
    if !t.isUserCreated then
      (Except.error "Cannot delete system templates", st)
    else
      let st1 := { st with
        templates := mapDel st.templates templateId,
        userTemplates := mapDel st.userTemplates templateId,
        favorites := st.favorites.erase templateId }
      let st2 :=
        match mapGet st1.categories t.category with
        | some cat =>
          let cat2 :=
            { cat with templates :=
                cat.templates.filter (fun i => i ≠ templateId) }
          { st1 with categories := mapSet st1.categories t.category cat2 }
        | none => st1
      let ru := st2.recentlyUsed.filter (fun i => i ≠ templateId)
      (Except.ok (), { st2 with recentlyUsed := ru })

/-- `TemplateManager.toggleFavorite`. -/
def toggleFavorite (st : Store) (templateId : String) : Store :=
  if templateId ∈ st.favorites then
    { st with favorites := st.favorites.erase templateId }
  else
    { st with favorites := insert templateId st.favorites }

end Templates

namespace Enhancer

open Js Analyzer Templates

/-- Suggestion record produced by `PromptEnhancer` (a loosely shaped JS
object; fields absent on some variants are `Option`s). -/
structure Suggestion where
  id : String
  type : String
  category : String
  priority : Nat
  title : String
  description : String
  originalIssue : Option Issue := none
  enhancementType : Option String := none
  previewText : Option String := none
  action : Option String := none
  template : Option Template := none
deriving DecidableEq, Repr

/-- Options bag passed to `PromptEnhancer.enhance`. -/
structure EnhOptions where
  context : Option String := none
  role : Option String := none
  format : Option String := none
  template : Option Template := none
deriving DecidableEq, Repr

/-- The enhancer's `this.templates` collaborator: `none` models a missing
or `categories`-less object (the constructor default `{}`), under which
`getTemplatesForCategory` returns `[]`. -/
def EnhTemplates : Type := Option (List (String × List Template))

/-- Case-insensitive prefix test comparing against an all-lowercase
pattern. -/
def prefixCI : List Char → List Char → Bool
  | [], _ => true
  | _ :: _, [] => false
  | a :: as, c :: cs => a = c.toLower && prefixCI as cs

/-- First alternative of `alts` (in alternation order) matching at the
head of `l` with a word boundary after it, returning its length.  All
alternatives used in the source start and end with letters, so `\b` holds
before iff the previous character is not a word character (tracked by the
caller) and after iff the following character is absent or not a word
character. -/
def findAlt (alts : List (List Char)) (l : List Char) : Option Nat :=
  match alts with
  | [] => none
  | a :: rest =>
    if prefixCI a l &&
        (match l.drop a.length with
         | d :: _ => !isWordChar d
         | [] => true) then some a.length
    else findAlt rest l

/-- Global case-insensitive word-bounded replacement, JS
`s.replace(/\b(a1|a2|...)\b/gi, rep)`.  `prevW` tracks whether the
previous character of the original string was a word character; matches
end in word characters, so after a replacement `prevW := true`.  Fuelled
by the input length (each step consumes at least one character). -/
def wbGo (alts : List (List Char)) (rep : List Char) :
    Nat → Bool → List Char → List Char
  | _, _, [] => []
  | 0, _, cs => cs
  | fuel + 1, prevW, c :: cs =>
    match (if prevW then none else findAlt alts (c :: cs)) with
    | some n => rep ++ wbGo alts rep fuel true ((c :: cs).drop n)
    | none => c :: wbGo alts rep fuel (isWordChar c) cs

/-- JS `s.replace(/\b(alts)\b/gi, rep)`. -/
def wbReplaceCI (alts : List String) (rep : String) (s : String) : String :=
  ⟨wbGo (alts.map (fun a => a.data)) rep.data s.data.length false s.data⟩

/-- `PromptEnhancer.inferRole`. -/
def inferRole (text : String) : String :=
  let lt := lowerStr text
  if containsSub lt "code" || containsSub lt "program" ||
      containsSub lt "develop" then "an experienced software developer"
  else if containsSub lt "design" || containsSub lt "ui" ||
      containsSub lt "ux" then "a professional designer"
  else if containsSub lt "business" || containsSub lt "strategy" ||
      containsSub lt "market" then "a business consultant"
  else if containsSub lt "write" || containsSub lt "content" ||
      containsSub lt "blog" then "a professional writer"
  else if containsSub lt "analyze" || containsSub lt "data" ||
      containsSub lt "research" then "a data analyst"
  else "an expert in the relevant field"

/-- `PromptEnhancer.inferDomain`. -/
def inferDomain (text : String) : String :=
  let lt := lowerStr text
  if containsSub lt "code" || containsSub lt "programming" then
    "software development"
  else if containsSub lt "design" || containsSub lt "ui" then "design"
  else if containsSub lt "business" || containsSub lt "marketing" then
    "business"
  else if containsSub lt "data" || containsSub lt "analysis" then
    "data analysis"
  else if containsSub lt "writing" || containsSub lt "content" then
    "content creation"
  else "general problem-solving"

/-- `PromptEnhancer.getIssuePriority`. -/
def getIssuePriority (issue : Issue) : Nat :=
  if issue.severity = "high" then 90
  else if issue.severity = "medium" then 60
  else if issue.severity = "low" then 30
  else 30

/-- `PromptEnhancer.generateLengthFix`. -/
def generateLengthFix (text : String) (_issue : Issue) : String :=
  if text.length < 15 then
    "I need help with " ++ text ++
      ". Could you please provide detailed guidance including background information, step-by-step instructions, and practical examples?"
  else if 2000 < text.length then
    let sentences := (jsSplit isSentChar text).filter (fun s => jsTrim s ≠ "")
    String.intercalate ". " (sentences.take 3) ++
      ". Please provide a comprehensive response."
  else text

/-- `PromptEnhancer.generateSpecificityFix`. -/
def generateSpecificityFix (text : String) : String :=
  wbReplaceCI [ "help", "explain", "tell me" ]
      "provide detailed guidance on" text ++
    " Please include specific examples, step-by-step instructions, and practical applications."

/-- `PromptEnhancer.generateContextAddition` (independent of its
argument). -/
def generateContextAddition (_text : String) : String :=
  "Background: I\x27m working on a project where [provide your specific situation]. "

/-- `PromptEnhancer.generateRoleDefinition`. -/
def generateRoleDefinition (a : Analysis) : String :=
  "Act as " ++ inferRole a.originalText ++ ". "

/-- `PromptEnhancer.generateFormatSpecification`. -/
def generateFormatSpecification (_text : String) : String :=
  "\n\nPlease format your response with clear headings, bullet points for key information, and practical examples."

/-- `PromptEnhancer.createEnhancementForIssue`.  Every branch keeps the
base fields, in particular `type = "issue_fix"`; `Date.now()` in the id is
the `now` parameter. -/
def createEnhancementForIssue (now : Nat) (issue : Issue) (a : Analysis) :
    Suggestion :=
  let base : Suggestion :=
    { id := "enhance_" ++ issue.type ++ "_" ++ toString now,
      type := "issue_fix", category := issue.type,
      priority := getIssuePriority issue,
      title := "Fix: " ++ issue.message,
      description := issue.suggestion,
      originalIssue := some issue }
  if issue.type = "length" then
    { base with
      enhancementType := some "structure_improvement",
      previewText := some (generateLengthFix a.originalText issue),
      action := some "replace" }
  else if issue.type = "vagueness" then
    { base with
      enhancementType := some "specificity_boost",
      previewText := some (generateSpecificityFix a.originalText),
      action := some "replace" }
  else if issue.type = "context" then
    { base with
      enhancementType := some "context_addition",
      previewText := some (generateContextAddition a.originalText),
      action := some "prefix" }
  else if issue.type = "role" then
    { base with
      enhancementType := some "role_definition",
      previewText := some (generateRoleDefinition a),
      action := some "prefix" }
  else if issue.type = "format" then
    { base with
      enhancementType := some "format_specification",
      previewText := some (generateFormatSpecification a.originalText),
      action := some "suffix" }
  else base

/-- `PromptEnhancer.mapCategoryToTemplate`. -/
def mapCategoryToTemplate (category : String) : String :=
  if category = "question" then "general"
  else if category = "instruction" then "general"
  else if category = "analysis" then "analysis"
  else if category = "explanation" then "academic"
  else if category = "technical" then "technical"
  else if category = "data" then "analysis"
  else "general"

/-- `PromptEnhancer.getTemplatesForCategory`. -/
def getTemplatesForCategory (tm : EnhTemplates) (category : String) :
    List Template :=
  match tm with
  | none => []
  | some m => (mapGet m category).getD []

/-- `PromptEnhancer.calculateTemplatePriority` (`template.priority || 50`
reads `50` for a falsy priority). -/
def calculateTemplatePriority (t : Template) (a : Analysis) : Nat :=
  let priority := if t.priority = 0 then 50 else t.priority
  let priority := if a.score < 50 then priority + 20 else priority
  let priority := a.issues.foldl
    (fun p i => if t.addresses.contains i.type then p + 15 else p) priority
  min 100 priority

/-- `PromptEnhancer.applyTemplateToText`. -/
def applyTemplateToText (text : String) (t : Template) : String :=
  if t.content = "" then text
  else
    jsReplaceAll
      (jsReplaceAll (jsReplaceAll t.content "\x7bprompt\x7d" text)
        "\x7bcontext\x7d" "[Your specific context here]")
      "\x7brequirements\x7d" "[Your specific requirements here]"

/-- The template-suggestion record pushed by
`PromptEnhancer.getTemplateSuggestions`. -/
def mkTemplateSuggestion (a : Analysis) (t : Template) : Suggestion :=
  { id := "template_" ++ t.id, type := "template", category := "template",
    priority := calculateTemplatePriority t a,
    title := "Apply " ++ t.name ++ " Template",
    description := t.description, template := some t,
    previewText := some (applyTemplateToText a.originalText t),
    action := some "replace",
    enhancementType := some "template_application" }

/-- `PromptEnhancer.getTemplateSuggestions`. -/
def getTemplateSuggestionsE (tm : EnhTemplates) (a : Analysis) :
    List Suggestion :=
  (getTemplatesForCategory tm (mapCategoryToTemplate a.category)).map
    (mkTemplateSuggestion a)

/-- `PromptEnhancer.addStrategicContext`: only `contextTemplates[0]` is
ever used, and each `replace` with a string pattern rewrites the first
occurrence. -/
def addStrategicContext (text : String) (_a : Analysis) : String :=
  jsReplaceFirst
    (jsReplaceFirst
      (jsReplaceFirst
        (jsReplaceFirst
          (jsReplaceFirst
            "Context: I\x27m working on \x7bdomain\x7d and need \x7bobjective\x7d. "
            "\x7bdomain\x7d" (inferDomain text))
          "\x7bobjective\x7d" "detailed guidance")
        "\x7bpurpose\x7d" "a project")
      "\x7brole\x7d" "professional")
    "\x7bproject\x7d" "an important task"

/-- `PromptEnhancer.restructurePrompt` (`Math.ceil(n/3) = (n+2)/3` and
`Math.ceil(2n/3) = (2n+2)/3` on naturals; `slice(a, b) = drop a, take
(b - a)`). -/
def restructurePrompt (text : String) : String :=
  let sentences := (jsSplit isSentChar text).filter (fun s => jsTrim s ≠ "")
  let n := sentences.length
  let context := sentences.take ((n + 2) / 3)
  let request := (sentences.drop ((n + 2) / 3)).take
    ((2 * n + 2) / 3 - (n + 2) / 3)
  let requirements := sentences.drop ((2 * n + 2) / 3)
  (if context.length ≠ 0 then
    "**Context:**\n" ++ String.intercalate ". " context ++ ".\n\n"
   else "") ++
  (if request.length ≠ 0 then
    "**Request:**\n" ++ String.intercalate ". " request ++ ".\n\n"
   else "") ++
  (if requirements.length ≠ 0 then
    "**Requirements:**\n" ++ String.intercalate ". " requirements ++ "."
   else "")

/-- `PromptEnhancer.addExpertRole`. -/
def addExpertRole (text : String) (_a : Analysis) : String :=
  "Act as " ++ inferRole text ++ ". "

/-- The three strategic records of
`PromptEnhancer.getStrategicEnhancements`. -/
def strategicContextSugg (text : String) (a : Analysis) : Suggestion :=
  { id := "strategic_context", type := "strategic", category := "context",
    priority := 70, title := "Add Strategic Context",
    description := "Provide background information to improve response quality",
    previewText := some (addStrategicContext text a),
    action := some "prefix", enhancementType := some "context_addition" }

/-- Strategic structure-improvement record. -/
def strategicStructureSugg (text : String) : Suggestion :=
  { id := "strategic_structure", type := "strategic",
    category := "structure", priority := 60, title := "Improve Structure",
    description := "Organize prompt with clear sections and bullet points",
    previewText := some (restructurePrompt text),
    action := some "replace",
    enhancementType := some "structure_improvement" }

/-- Strategic role-definition record. -/
def strategicRoleSugg (text : String) (a : Analysis) : Suggestion :=
  { id := "strategic_role", type := "strategic", category := "role",
    priority := 65, title := "Define Expert Role",
    description := "Specify what type of expert should respond",
    previewText := some (addExpertRole text a),
    action := some "prefix", enhancementType := some "role_definition" }

/-- `PromptEnhancer.getStrategicEnhancements`.  On the empty analysis
`analysis.metrics` is `{}` and every comparison against `undefined` is
false, so no strategic suggestion fires: the `none` branch. -/
def getStrategicEnhancements (a : Analysis) : List Suggestion :=
  match a.metrics with
  | none => []
  | some m =>
    (if a.score < 60 ∧ 10 < m.wordCount then
      [strategicContextSugg a.originalText a] else []) ++
    (if 100 < m.wordCount ∧ 5 < m.sentenceCount then
      [strategicStructureSugg a.originalText] else []) ++
    (if 50 < m.complexityScore ∧
        !containsSub (lowerStr a.originalText) "act as" then
      [strategicRoleSugg a.originalText a] else [])

/-- Type rank used by the `prioritizeSuggestions` tie-break. -/
def typeOrder (ty : String) : Nat :=
  if ty = "issue_fix" then 3
  else if ty = "strategic" then 2
  else if ty = "template" then 1
  else 0

/-- `PromptEnhancer.prioritizeSuggestions`: JS stable sort with comparator
`b.priority - a.priority`, ties broken by `typeOrder[b] - typeOrder[a]`;
`a` stays before `b` iff the comparator is `≤ 0`. -/
def prioritizeSuggestions (l : List Suggestion) : List Suggestion :=
  l.mergeSort (fun a b =>
    if a.priority = b.priority then decide (typeOrder b.type ≤ typeOrder a.type)
    else decide (b.priority ≤ a.priority))

/-- `PromptEnhancer.generateSuggestions` (the spec calls it
`buildSuggestions`): issue fixes, then template suggestions, then
strategic suggestions, sorted.  The `onSuggestionsReady` callback is a
fire-and-forget side effect outside the embedding. -/
def generateSuggestionsE (tm : EnhTemplates) (now : Nat) (a : Analysis) :
    List Suggestion :=
  prioritizeSuggestions
    (a.issues.map (fun i => createEnhancementForIssue now i a) ++
      getTemplateSuggestionsE tm a ++ getStrategicEnhancements a)

/-- `PromptEnhancer.addContext`: `Math.floor(Math.random() * 4)` is the
injected `rand % 4`. -/
def addContext (text : String) (opts : EnhOptions) (rand : Nat) : String :=
  let contextPrefixes : List String :=
    [ "Given the context of", "In the situation where", "Considering that",
      "With the background that" ]
  let context := jsOr opts.context "a typical use case"
  (contextPrefixes.getD (rand % 4) "") ++ " " ++ context ++ ", " ++ text

/-- `PromptEnhancer.defineRole`. -/
def defineRole (text : String) (opts : EnhOptions) : String :=
  "Act as " ++ jsOr opts.role (inferRole text) ++ ". " ++ text

/-- `PromptEnhancer.specifyFormat`. -/
def specifyFormat (text : String) (opts : EnhOptions) : String :=
  text ++ "\n\nPlease provide your response as " ++
    jsOr opts.format "a clear, well-structured response" ++ "."

/-- `PromptEnhancer.boostSpecificity`: the eight word-bounded replacements
applied in object insertion order. -/
def boostSpecificity (text : String) : String :=
  [ ( "help", "provide detailed guidance on"),
    ( "info", "comprehensive information about"),
    ( "explain", "explain in detail with examples"),
    ( "how", "what are the step-by-step instructions for"),
    ( "what", "what specifically"),
    ( "general", "specific and detailed"),
    ( "basic", "comprehensive"),
    ( "simple", "detailed yet clear") ].foldl
    (fun t pr => wbReplaceCI [pr.1] pr.2 t) text

/-- `PromptEnhancer.groupSentencesIntoSections`
(`Math.ceil(n/2) = (n+1)/2`). -/
def groupSentencesIntoSections (sentences : List String) :
    List (String × String) :=
  [ ( "context",
      String.intercalate ". " (sentences.take ((sentences.length + 1) / 2))
        ++ "."),
    ( "request",
      String.intercalate ". " (sentences.drop ((sentences.length + 1) / 2))
        ++ ".") ]

/-- `PromptEnhancer.improveStructure`. -/
def improveStructure (text : String) : String :=
  let sentences := (jsSplit isSentChar text).filter (fun s => jsTrim s ≠ "")
  if sentences.length ≤ 2 then text
  else
    let sections := groupSentencesIntoSections sentences
    jsTrim (sections.foldl
      (fun acc sec =>
        if sec.1 = "context" then acc ++ "**Context:**\n" ++ sec.2 ++ "\n\n"
        else if sec.1 = "request" then
          acc ++ "**Request:**\n" ++ sec.2 ++ "\n\n"
        else if sec.1 = "requirements" then
          acc ++ "**Requirements:**\n" ++ sec.2 ++ "\n\n"
        else acc ++ sec.2 ++ "\n\n")
      "")

/-- `PromptEnhancer.applyTemplate` (the transformation method, distinct
from the template manager's). -/
def applyTemplateE (text : String) (opts : EnhOptions) : String :=
  match opts.template with
  | none => text
  | some t => jsReplaceAll t.content "\x7bprompt\x7d" text

/-- `PromptEnhancer.generalEnhancement`.  Both conditions test the lowered
original text; the politeness branch lowercases the text it prefixes. -/
def generalEnhancement (text : String) (_opts : EnhOptions) : String :=
  let lt := lowerStr text
  let enhanced :=
    if !(containsSub lt "please" || containsSub lt "thank") then
      "Please " ++ lowerStr text
    else text
  if !(containsSub lt "specific" || containsSub lt "detail") then
    enhanced ++ " Please be specific and provide detailed information."
  else enhanced

/-- `PromptEnhancer.enhance`: dispatch on the strategy name, any other
value falling through to `generalEnhancement`. -/
def enhance (text enhancementType : String) (opts : EnhOptions)
    (rand : Nat) : String :=
  if enhancementType = "context_addition" then addContext text opts rand
  else if enhancementType = "role_definition" then defineRole text opts
  else if enhancementType = "format_specification" then
    specifyFormat text opts
  else if enhancementType = "specificity_boost" then boostSpecificity text
  else if enhancementType = "structure_improvement" then
    improveStructure text
  else if enhancementType = "template_application" then
    applyTemplateE text opts
  else generalEnhancement text opts

end Enhancer

namespace Claims

open Js Analyzer Templates Enhancer

/-- A system (non-user-created) template, as seeded by
`addDefaultTemplates` (shape only; the default content is irrelevant to
the claims, which quantify over stores). -/
def sysT : Template :=
  { id := "sys1", category := "general", name := "System One",
    description := "a system template", content := "Sys \x7bprompt\x7d",
    priority := 90, isUserCreated := false }

/-- A template declaring a `topic` variable whose content mentions
`\x7btopic\x7d`. -/
def topicT : Template :=
  { id := "t1", category := "general", name := "Topic",
    description := "a topic template", content := "About \x7btopic\x7d",
    variables_ := [ "topic" ], isUserCreated := false }

/-- Store holding only `sysT`. -/
def sysStore : Store := { templates := [( "sys1", sysT)] }

/-- Store holding only `topicT`. -/
def topicStore : Store := { templates := [( "t1", topicT)] }

/-- Membership in a conditional singleton. -/
theorem mem_ite_singleton {α : Type} {c : Prop} [Decidable c] {x y : α} :
    (y ∈ (if c then [x] else [])) ↔ c ∧ y = x := by
  split_ifs with h <;> simp [h]

/-- C2, counterexample: on the empty store, `deleteTemplate` of an absent
id returns silently with the store unchanged — there is no
unknown-template-id error, refuting the claimed NotFoundError. -/
theorem C2_counterexample :
    getTemplate ({} : Store) "missing" = none ∧
      deleteTemplate ({} : Store) "missing" = (Except.ok (), ({} : Store)) :=
  ⟨rfl, rfl⟩

/-- C2, amended: `deleteTemplate` on an id absent from the store returns
without an error and leaves the store exactly unchanged. -/
theorem C2_delete_unknown_silent (st : Store) (templateId : String)
    (h : getTemplate st templateId = none) :
    deleteTemplate st templateId = (Except.ok (), st) := by
  unfold deleteTemplate
  rw [h]

/-- C2, witness for the amended theorem at the empty store. -/
theorem C2_witness :
    deleteTemplate ({} : Store) "missing" = (Except.ok (), ({} : Store)) :=
  C2_delete_unknown_silent {} "missing" rfl

/-- C5: `updateTemplate` and `deleteTemplate` on a stored template that is
not user-created both raise the permission error, returning the store
exactly as it was (no field of the state is touched before the throw). -/
theorem C5_system_template_mutation_blocked (st : Store)
    (templateId : String) (t : Template) (updates : Template → Template)
    (now : Nat) (hget : getTemplate st templateId = some t)
    (huser : t.isUserCreated = false) :
    updateTemplate st templateId updates now =
      (Except.error "Cannot modify system templates", st) ∧
    deleteTemplate st templateId =
      (Except.error "Cannot delete system templates", st) := by
  constructor
  · unfold updateTemplate
    rw [hget]
    simp [huser]
  · unfold deleteTemplate
    rw [hget]
    simp [huser]

/-- C5, witness at a one-template store holding the system template. -/
theorem C5_witness :
    updateTemplate sysStore "sys1" id 7 =
      (Except.error "Cannot modify system templates", sysStore) ∧
    deleteTemplate sysStore "sys1" =
      (Except.error "Cannot delete system templates", sysStore) :=
  C5_system_template_mutation_blocked sysStore "sys1" sysT id 7 rfl rfl

/-- C8: double `toggleFavorite` restores the store (favorites included)
exactly; a single toggle adds an absent id and removes a present one. -/
theorem C8_toggleFavorite_involutive (st : Store) (templateId : String) :
    toggleFavorite (toggleFavorite st templateId) templateId = st ∧
    (templateId ∉ st.favorites →
      templateId ∈ (toggleFavorite st templateId).favorites) ∧
    (templateId ∈ st.favorites →
      templateId ∉ (toggleFavorite st templateId).favorites) := by
  by_cases h : templateId ∈ st.favorites
  · refine ⟨?_, fun hn => absurd h hn, fun _ => ?_⟩
    · simp [toggleFavorite, h, Finset.insert_erase]
    · simp [toggleFavorite, h]
  · refine ⟨?_, fun _ => ?_, fun hm => absurd hm h⟩
    · simp [toggleFavorite, h, Finset.erase_insert]
    · simp [toggleFavorite, h]

/-- C8, witness at the system store and its template id. -/
theorem C8_witness :
    toggleFavorite (toggleFavorite sysStore "sys1") "sys1" = sysStore ∧
    ( "sys1" ∉ sysStore.favorites →
      "sys1" ∈ (toggleFavorite sysStore "sys1").favorites) ∧
    ( "sys1" ∈ sysStore.favorites →
      "sys1" ∉ (toggleFavorite sysStore "sys1").favorites) :=
  C8_toggleFavorite_involutive sysStore "sys1"

/-- C1, counterexample: applying `topicT` with no supplied variables
leaves the declared `topic` variable as the untouched token, not as the
claimed bracketed placeholder. -/
theorem C1_counterexample :
    "topic" ∈ topicT.variables_ ∧
    containsSub topicT.content "\x7btopic\x7d" = true ∧
    (applyTemplate topicStore "t1" "x" [] 0).1 =
      Except.ok "About \x7btopic\x7d" ∧
    containsSub "About \x7btopic\x7d" "\x7btopic\x7d" = true ∧
    containsSub "About \x7btopic\x7d" "[topic]" = false := by
  refine ⟨by decide, by decide, ?_, by decide, by decide⟩
  rfl

/-- C1, amended: with no supplied variables, `applyTemplate` substitutes
exactly the two implicit entries `prompt` and `original_prompt` (an empty
original prompt rendering as a bracketed placeholder); every other
declared variable's token is left untouched in the output. -/
theorem C1_apply_no_vars_only_implicit (st : Store)
    (templateId originalPrompt : String) (t : Template) (now : Nat)
    (hget : getTemplate st templateId = some t) :
    (applyTemplate st templateId originalPrompt [] now).1 =
      Except.ok (substVar (substVar t.content ( "prompt", originalPrompt))
        ( "original_prompt", originalPrompt)) := by
  unfold applyTemplate
  rw [hget]
  rfl

/-- C1, witness for the amended theorem on `topicStore`. -/
theorem C1_witness :
    (applyTemplate topicStore "t1" "x" [] 0).1 =
      Except.ok (substVar (substVar topicT.content ( "prompt", "x"))
        ( "original_prompt", "x")) :=
  C1_apply_no_vars_only_implicit topicStore "t1" "x" topicT 0 rfl

/-- C9: a variable supplied with the falsy empty string is rendered as the
literal bracketed placeholder `[varName]`, exactly as an unresolved
implicit variable would be. -/
theorem C9_supplied_falsy_becomes_placeholder (st : Store)
    (templateId originalPrompt v : String) (t : Template) (now : Nat)
    (hget : getTemplate st templateId = some t) (hv1 : v ≠ "prompt")
    (hv2 : v ≠ "original_prompt") :
    (applyTemplate st templateId originalPrompt [(v, "")] now).1 =
      Except.ok (jsReplaceAll
        (substVar (substVar t.content ( "prompt", originalPrompt))
          ( "original_prompt", originalPrompt))
        ( "\x7b" ++ v ++ "\x7d") ( "[" ++ v ++ "]")) := by
  unfold applyTemplate
  rw [hget]
  have h1 : ( "prompt" = v) = False := by
    simp [Ne.symm hv1]
  have h2 : ( "original_prompt" = v) = False := by
    simp [Ne.symm hv2]
  simp [objAssign, mapSet, substVar, h1, h2]

/-- C9, witness on `topicStore` with `topic` supplied as `""`. -/
theorem C9_witness :
    (applyTemplate topicStore "t1" "x" [( "topic", "")] 0).1 =
      Except.ok (jsReplaceAll
        (substVar (substVar topicT.content ( "prompt", "x"))
          ( "original_prompt", "x"))
        ( "\x7b" ++ "topic" ++ "\x7d") ( "[" ++ "topic" ++ "]")) :=
  C9_supplied_falsy_becomes_placeholder topicStore "t1" "x" "topic" topicT 0
    rfl (by decide) (by decide)

/-- C4: `analyze` is a total function — no input raises — and on the empty
string, `null`, and non-string inputs (numbers, booleans) it returns the
zeroed analysis: score 0, category "general", empty issues and
suggestions, and the empty metrics object (`none`). -/
theorem C4_analyze_guard (now : Nat) :
    analyze JsInput.jnull now = createEmptyAnalysis now ∧
    analyze (JsInput.jstr "") now = createEmptyAnalysis now ∧
    (∀ q : ℚ, analyze (JsInput.jnum q) now = createEmptyAnalysis now) ∧
    (∀ b : Bool, analyze (JsInput.jbool b) now = createEmptyAnalysis now) ∧
    (createEmptyAnalysis now).score = 0 ∧
    (createEmptyAnalysis now).category = "general" ∧
    (createEmptyAnalysis now).issues = [] ∧
    (createEmptyAnalysis now).suggestions = [] ∧
    (createEmptyAnalysis now).metrics = none :=
  ⟨rfl, rfl, fun _ => rfl, fun _ => rfl, rfl, rfl, rfl, rfl, rfl⟩

/-- C10: any enhancement type outside the six strategies falls through to
`generalEnhancement` (so `enhance` never fails); the general enhancement
starts with the text "Please " when the input mentions neither "please"
nor "thank", and ends with the specifics request when it mentions neither
"specific" nor "detail". -/
theorem C10_enhance_unknown_type_general (text ty : String)
    (opts : EnhOptions) (rand : Nat)
    (hty : ty ∉ ([ "context_addition", "role_definition",
      "format_specification", "specificity_boost", "structure_improvement",
      "template_application" ] : List String)) :
    enhance text ty opts rand = generalEnhancement text opts ∧
    (containsSub (lowerStr text) "please" = false →
      containsSub (lowerStr text) "thank" = false →
      ∃ r, generalEnhancement text opts = "Please " ++ r) ∧
    (containsSub (lowerStr text) "specific" = false →
      containsSub (lowerStr text) "detail" = false →
      ∃ p, generalEnhancement text opts =
        p ++ " Please be specific and provide detailed information.") := by
  simp only [List.mem_cons, List.not_mem_nil, or_false, not_or] at hty
  obtain ⟨h1, h2, h3, h4, h5, h6⟩ := hty
  refine ⟨?_, ?_, ?_⟩
  · simp [enhance, h1, h2, h3, h4, h5, h6]
  · intro hp ht
    simp only [generalEnhancement, hp, ht, Bool.or_false, Bool.not_false,
      if_true]
    split
    · exact ⟨lowerStr text ++ " Please be specific and provide detailed information.",
        (String.append_assoc _ _ _)⟩
    · exact ⟨lowerStr text, rfl⟩
  · intro hs hd
    simp only [generalEnhancement, hs, hd, Bool.or_false, Bool.not_false,
      if_true]
    split
    · exact ⟨_, rfl⟩
    · exact ⟨_, rfl⟩

/-- C10, witness: a bogus enhancement type on a text naming none of the
four keywords. -/
theorem C10_witness :
    enhance "Summarize the plan" "bogus" {} 0 =
      generalEnhancement "Summarize the plan" {} ∧
    (containsSub (lowerStr "Summarize the plan") "please" = false →
      containsSub (lowerStr "Summarize the plan") "thank" = false →
      ∃ r, generalEnhancement "Summarize the plan" {} = "Please " ++ r) ∧
    (containsSub (lowerStr "Summarize the plan") "specific" = false →
      containsSub (lowerStr "Summarize the plan") "detail" = false →
      ∃ p, generalEnhancement "Summarize the plan" {} =
        p ++ " Please be specific and provide detailed information.") :=
  C10_enhance_unknown_type_general "Summarize the plan" "bogus" {} 0
    (by decide)

/-- `countP` distributes over a conditional list. -/
theorem countP_ite {α : Type} (p : α → Bool) (c : Prop) [Decidable c]
    (l1 l2 : List α) :
    (if c then l1 else l2).countP p =
      if c then l1.countP p else l2.countP p := by
  split <;> rfl

/-- The spec-worded context-keyword containment of C6: a case-insensitive
occurrence of "context", "background", "scenario" or "situation" anywhere
in the text, with no word-boundary requirement (any reasonable reading of
the claim is refuted by the counterexample, which contains none of the
four words under any reading). -/
def specContainsContextKeyword (s : String) : Bool :=
  [ "context", "background", "scenario", "situation" ].any
    (fun w => containsCI s w)

/-- The two-line, keyword-free counterexample text of C6 (39 characters). -/
def c6Text : String := "aaaa aaaa aaaa aaaa\nbbbb bbbb bbbb bbbb"

/-- C6, counterexample: a keyword-free text longer than 30 characters
that contains a newline produces no context issue, refuting the claimed
"if" direction — the `noContext` regex (`^(?!...).+$` with no `s`/`m`
flag) can never match a text containing a line terminator. -/
theorem C6_counterexample :
    specContainsContextKeyword c6Text = false ∧
    30 < c6Text.length ∧
    (identifyIssues c6Text).countP (fun i => i.type == "context") = 0 := by
  refine ⟨by decide, by decide, by decide⟩

/-- C6, amended: the context issue fires exactly once when the text is a
single line — nonempty and free of line terminators — containing no
`\b`-bounded case-insensitive context keyword, and is longer than 30
characters; otherwise it does not fire.  In particular it fires at most
once per call, and any text containing a line terminator (keyword or not)
never yields a context issue. -/
theorem C6_context_issue_iff (s : String) :
    ((identifyIssues s).countP (fun i => i.type == "context") =
      if noContextTest s ∧ 30 < s.length then 1 else 0) ∧
    (identifyIssues s).countP (fun i => i.type == "context") ≤ 1 ∧
    noContextTest s =
      (!s.isEmpty && !(s.data.any isLineTerm) &&
        !containsWordOf [ "context", "background", "scenario", "situation" ] s) := by
  have e1 : List.countP (fun i => i.type == "context") [lengthShortIssue] = 0 := by decide
  have e2 : List.countP (fun i => i.type == "context") [lengthLongIssue] = 0 := by decide
  have e3 : List.countP (fun i => i.type == "context") [vaguenessIssue] = 0 := by decide
  have e4 : List.countP (fun i => i.type == "context") [contextIssue] = 1 := by decide
  have e5 : List.countP (fun i => i.type == "context") [roleIssue] = 0 := by decide
  have e6 : List.countP (fun i => i.type == "context") [formatIssue] = 0 := by decide
  have e7 : List.countP (fun i => i.type == "context") [specificityIssue] = 0 := by decide
  have h : (identifyIssues s).countP (fun i => i.type == "context") =
      if noContextTest s ∧ 30 < s.length then 1 else 0 := by
    unfold identifyIssues
    simp only [List.countP_append, countP_ite, e1, e2, e3, e4, e5, e6, e7,
      List.countP_nil, ite_self, zero_add, add_zero]
  refine ⟨h, ?_, rfl⟩
  rw [h]
  split <;> norm_num

/-- The spec's length adjustment: "+20 if wordCount within [50,500], −15
if below 50, −10 if above 500". -/
def specLengthAdjustment (wc : Nat) : ℚ :=
  if 50 ≤ wc ∧ wc ≤ 500 then 20 else if wc < 50 then -15 else -10

/-- The spec's score formula, worded as in the claim: start at 50, add the
length adjustment, subtract 15/10/5 per high/medium/low issue, add
0.3 × specificityScore plus 0.1 × readabilityScore, round, clamp to
[0, 100]. -/
def specScore (m : Metrics) (issues : List Issue) : Int :=
  max 0 (min 100 (jsRound
    (50 + specLengthAdjustment m.wordCount
      - 15 * (issues.countP (fun i => i.severity == "high") : ℚ)
      - 10 * (issues.countP (fun i => i.severity == "medium") : ℚ)
      - 5 * (issues.countP (fun i => i.severity == "low") : ℚ)
      + (3/10) * (m.specificityScore : ℚ)
      + (1/10) * m.readabilityScore)))

/-- Pointwise decomposition of the severity penalty into indicator
terms. -/
theorem severityPenalty_eq (i : Issue) :
    severityPenalty i =
      15 * (if i.severity == "high" then (1 : ℚ) else 0)
      + 10 * (if i.severity == "medium" then (1 : ℚ) else 0)
      + 5 * (if i.severity == "low" then (1 : ℚ) else 0) := by
  by_cases h1 : i.severity = "high"
  · simp [severityPenalty, h1]
  · by_cases h2 : i.severity = "medium"
    · simp [severityPenalty, h2]
    · by_cases h3 : i.severity = "low"
      · simp [severityPenalty, h3]
      · simp [severityPenalty, if_neg h1, if_neg h2, if_neg h3,
          beq_eq_false_iff_ne.mpr h1, beq_eq_false_iff_ne.mpr h2,
          beq_eq_false_iff_ne.mpr h3]

/-- Summed penalties are 15/10/5 times the per-severity counts. -/
theorem sum_severityPenalty (l : List Issue) :
    (l.map severityPenalty).sum =
      15 * (l.countP (fun i => i.severity == "high") : ℚ)
      + 10 * (l.countP (fun i => i.severity == "medium") : ℚ)
      + 5 * (l.countP (fun i => i.severity == "low") : ℚ) := by
  induction l with
  | nil => simp
  | cons a t ih =>
    simp only [List.map_cons, List.sum_cons, List.countP_cons, ih,
      severityPenalty_eq a]
    push_cast [apply_ite (fun n : Nat => (n : ℚ))]
    ring_nf

/-- The issue-penalty fold subtracts the summed penalties. -/
theorem foldl_sub_penalty (l : List Issue) (x : ℚ) :
    l.foldl (fun a i => a - severityPenalty i) x =
      x - (l.map severityPenalty).sum := by
  induction l generalizing x with
  | nil => simp
  | cons a t ih =>
    simp only [List.foldl_cons, List.map_cons, List.sum_cons, ih]
    ring_nf

/-- The source's sequential score computation equals the spec formula. -/
theorem calculateScore_eq_spec (m : Metrics) (issues : List Issue) :
    calculateScore m issues = specScore m issues := by
  simp only [calculateScore, specScore]
  congr 2
  rw [foldl_sub_penalty, sum_severityPenalty]
  unfold specLengthAdjustment
  split_ifs <;> ring_nf

/-- C3: for nonempty text the analysis score is exactly the spec formula
(round of the base-50 adjusted sum, clamped), and in particular it always
lies in [0, 100]. -/
theorem C3_score_formula (s : String) (now : Nat) (hs : s ≠ "") :
    (analyze (JsInput.jstr s) now).score =
      specScore (calculateMetrics s) (identifyIssues s) ∧
    0 ≤ (analyze (JsInput.jstr s) now).score ∧
    (analyze (JsInput.jstr s) now).score ≤ 100 := by
  have hE : (analyze (JsInput.jstr s) now).score =
      calculateScore (calculateMetrics s) (identifyIssues s) := by
    simp [analyze, hs]
  refine ⟨?_, ?_, ?_⟩
  · rw [hE, calculateScore_eq_spec]
  · rw [hE]
    simp only [calculateScore]
    exact le_max_left _ _
  · rw [hE]
    simp only [calculateScore]
    exact max_le (by norm_num) (min_le_left _ _)

/-- C3, witness at the text "hello". -/
theorem C3_witness :
    (analyze (JsInput.jstr "hello") 0).score =
      specScore (calculateMetrics "hello") (identifyIssues "hello") ∧
    0 ≤ (analyze (JsInput.jstr "hello") 0).score ∧
    (analyze (JsInput.jstr "hello") 0).score ≤ 100 :=
  C3_score_formula "hello" 0 (by decide)

/-- Issue-fix suggestions always carry `type = "issue_fix"`. -/
theorem createEnhancementForIssue_type (now : Nat) (i : Issue)
    (a : Analysis) : (createEnhancementForIssue now i a).type = "issue_fix" := by
  unfold createEnhancementForIssue
  split_ifs <;> rfl

/-- Template suggestions always carry `type = "template"`. -/
theorem mkTemplateSuggestion_type (a : Analysis) (t : Template) :
    (mkTemplateSuggestion a t).type = "template" := rfl

/-- C7: a strategic suggestion of each enhancement type is produced by
`generateSuggestions` exactly under its trigger — context-addition iff
score < 60 and wordCount > 10, structure-improvement iff wordCount > 100
and sentenceCount > 5, role-definition iff complexityScore > 50 and the
text does not contain the role phrase "act as" (case-insensitively). -/
theorem C7_strategic_suggestions_iff (tm : EnhTemplates) (now : Nat)
    (a : Analysis) (m : Metrics) (hm : a.metrics = some m) :
    ((∃ s ∈ generateSuggestionsE tm now a, s.type = "strategic" ∧
        s.enhancementType = some "context_addition") ↔
      (a.score < 60 ∧ 10 < m.wordCount)) ∧
    ((∃ s ∈ generateSuggestionsE tm now a, s.type = "strategic" ∧
        s.enhancementType = some "structure_improvement") ↔
      (100 < m.wordCount ∧ 5 < m.sentenceCount)) ∧
    ((∃ s ∈ generateSuggestionsE tm now a, s.type = "strategic" ∧
        s.enhancementType = some "role_definition") ↔
      (50 < m.complexityScore ∧
        !containsSub (lowerStr a.originalText) "act as")) := by
  have hmem : ∀ s : Suggestion, s ∈ generateSuggestionsE tm now a ↔
      s ∈ (a.issues.map (fun i => createEnhancementForIssue now i a) ++
        getTemplateSuggestionsE tm a ++ getStrategicEnhancements a) := by
    intro s
    simp [generateSuggestionsE, prioritizeSuggestions]
  have key : ∀ et : String,
      (∃ s ∈ generateSuggestionsE tm now a, s.type = "strategic" ∧
        s.enhancementType = some et) ↔
      (∃ s ∈ getStrategicEnhancements a, s.type = "strategic" ∧
        s.enhancementType = some et) := by
    intro et
    constructor
    · rintro ⟨s, hs, h1, h2⟩
      rw [hmem] at hs
      rcases List.mem_append.1 hs with hs | hs
      · rcases List.mem_append.1 hs with hs | hs
        · obtain ⟨i, _, rfl⟩ := List.mem_map.1 hs
          rw [createEnhancementForIssue_type] at h1
          exact absurd h1 (by decide)
        · obtain ⟨t, _, rfl⟩ := List.mem_map.1 hs
          rw [mkTemplateSuggestion_type] at h1
          exact absurd h1 (by decide)
      · exact ⟨s, hs, h1, h2⟩
    · rintro ⟨s, hs, h1, h2⟩
      refine ⟨s, ?_, h1, h2⟩
      rw [hmem]
      exact List.mem_append.2 (Or.inr hs)
  have hstrat : getStrategicEnhancements a =
      (if a.score < 60 ∧ 10 < m.wordCount then
        [strategicContextSugg a.originalText a] else []) ++
      (if 100 < m.wordCount ∧ 5 < m.sentenceCount then
        [strategicStructureSugg a.originalText] else []) ++
      (if 50 < m.complexityScore ∧
          !containsSub (lowerStr a.originalText) "act as" then
        [strategicRoleSugg a.originalText a] else []) := by
    unfold getStrategicEnhancements
    rw [hm]
  refine ⟨?_, ?_, ?_⟩
  · rw [key, hstrat]
    simp only [List.mem_append, mem_ite_singleton]
    constructor
    · rintro ⟨s, ((⟨hc, rfl⟩ | ⟨hc, rfl⟩) | ⟨hc, rfl⟩), h1, h2⟩
      · exact hc
      · simp [strategicStructureSugg] at h2
      · simp [strategicRoleSugg] at h2
    · rintro ⟨hA, hB⟩
      exact ⟨strategicContextSugg a.originalText a,
        Or.inl (Or.inl ⟨⟨hA, hB⟩, rfl⟩), rfl, rfl⟩
  · rw [key, hstrat]
    simp only [List.mem_append, mem_ite_singleton]
    constructor
    · rintro ⟨s, ((⟨hc, rfl⟩ | ⟨hc, rfl⟩) | ⟨hc, rfl⟩), h1, h2⟩
      · simp [strategicContextSugg] at h2
      · exact hc
      · simp [strategicRoleSugg] at h2
    · rintro ⟨hA, hB⟩
      exact ⟨strategicStructureSugg a.originalText,
        Or.inl (Or.inr ⟨⟨hA, hB⟩, rfl⟩), rfl, rfl⟩
  · rw [key, hstrat]
    simp only [List.mem_append, mem_ite_singleton]
    constructor
    · rintro ⟨s, ((⟨hc, rfl⟩ | ⟨hc, rfl⟩) | ⟨hc, rfl⟩), h1, h2⟩
      · simp [strategicContextSugg] at h2
      · simp [strategicStructureSugg] at h2
      · exact hc
    · rintro ⟨hA, hB⟩
      exact ⟨strategicRoleSugg a.originalText a,
        Or.inr ⟨⟨hA, hB⟩, rfl⟩, rfl, rfl⟩

/-- Metrics of the claim's scenario: 120 words, 6 sentences, complexity
above 50. -/
def c7Metrics : Metrics :=
  { characterCount := 600, wordCount := 120, sentenceCount := 6,
    paragraphCount := 1, averageWordsPerSentence := 20,
    readabilityScore := 50, complexityScore := 60, specificityScore := 10 }

/-- Analysis record of the claim's scenario (no role phrase in the
text). -/
def c7Analysis : Analysis :=
  { originalText := "plan the data pipeline", timestamp := 0,
    metrics := some c7Metrics, issues := [], suggestions := [],
    score := 70, category := "general" }

/-- C7, witness at the scenario analysis. -/
theorem C7_witness :
    ((∃ s ∈ generateSuggestionsE none 0 c7Analysis, s.type = "strategic" ∧
        s.enhancementType = some "context_addition") ↔
      (c7Analysis.score < 60 ∧ 10 < c7Metrics.wordCount)) ∧
    ((∃ s ∈ generateSuggestionsE none 0 c7Analysis, s.type = "strategic" ∧
        s.enhancementType = some "structure_improvement") ↔
      (100 < c7Metrics.wordCount ∧ 5 < c7Metrics.sentenceCount)) ∧
    ((∃ s ∈ generateSuggestionsE none 0 c7Analysis, s.type = "strategic" ∧
        s.enhancementType = some "role_definition") ↔
      (50 < c7Metrics.complexityScore ∧
        !containsSub (lowerStr c7Analysis.originalText) "act as")) :=
  C7_strategic_suggestions_iff none 0 c7Analysis c7Metrics rfl

end Claims
